import Mathlib

/-!
# Verification of the cost-optimization decision logic

Shallow embedding of the decision logic of the two AWS cost-automation
scripts (`scripts/cost-optimization-lambda.py` and
`scripts/cost-optimization-automation.py`).  Python floats are embedded as
rationals (`ℚ`); capacities and counts as integers/naturals; boto3 calls
are embedded as `Except String`-valued inputs (an `Except.error` models
the call raising an exception); dictionaries keyed by instance type or
availability zone are embedded as association lists in insertion order.
Display rounding (Python `round(x, 2)`) and constant narrative strings
(`reason`, `action`, `message` texts) are elided: no verified property
depends on them.
-/

namespace CostOpt

/-! ## IdleDetector — `_is_instance_idle` (cost-optimization-lambda.py, lines 226-257) -/

/-- Average of a list of samples: `sum(xs) / len(xs)` (0 on the empty
list, which Python never evaluates because every call site is guarded by
a non-emptiness test). -/
def listAvg (xs : List ℚ) : ℚ := xs.sum / xs.length

/-- The three metric series `_get_instance_metrics` produces for one
instance: `GPUUtilization`, `GPUMemoryUtilization`, `CPUUtilization`. -/
structure InstanceMetrics where
  gpuUtil : List ℚ
  gpuMemoryUtil : List ℚ
  cpuUtil : List ℚ

/-- `_is_instance_idle`: sequential early-return threshold checks.
Each non-empty series whose average is at or above its threshold
(5.0 for GPU, 10.0 for GPU memory, 10.0 for CPU) returns `False`;
then `if not any([gpu_util, gpu_memory, cpu_util]): return False`
(all three series empty); otherwise `True`. -/
def is_instance_idle (m : InstanceMetrics) : Bool :=
  if m.gpuUtil ≠ [] ∧ 5 ≤ listAvg m.gpuUtil then false
  else if m.gpuMemoryUtil ≠ [] ∧ 10 ≤ listAvg m.gpuMemoryUtil then false
  else if m.cpuUtil ≠ [] ∧ 10 ≤ listAvg m.cpuUtil then false
  else if m.gpuUtil = [] ∧ m.gpuMemoryUtil = [] ∧ m.cpuUtil = [] then false
  else true

/-! ## UtilizationObserver — `_get_instance_metrics` (lambda, lines 187-224)
and `get_gpu_utilization` (automation, lines 151-176) -/

/-- One CloudWatch datapoint (`Timestamp`, `Average`). -/
structure Datapoint where
  timestamp : ℕ
  average : ℚ
deriving DecidableEq

/-- `sorted(response['Datapoints'], key=lambda x: x['Timestamp'])`
(Python's `sorted` is a stable ascending sort). -/
def sortDatapoints (dps : List Datapoint) : List Datapoint :=
  dps.mergeSort (fun a b => a.timestamp ≤ b.timestamp)

/-- One metric's series in `_get_instance_metrics`: on a CloudWatch error
the series is set to `[]`; otherwise the datapoints are sorted ascending
by timestamp and the `Average` values extracted. -/
def get_metric_series (resp : Except String (List Datapoint)) : List ℚ :=
  match resp with
  | .error _ => []
  | .ok dps => (sortDatapoints dps).map (·.average)

/-- The three CloudWatch responses one `_get_instance_metrics` call sees. -/
structure MetricResponses where
  gpu : Except String (List Datapoint)
  gpuMemory : Except String (List Datapoint)
  cpu : Except String (List Datapoint)

/-- `_get_instance_metrics`: each of the three metric queries is wrapped
in its own try/except, an error producing an empty series. -/
def get_instance_metrics (r : MetricResponses) : InstanceMetrics :=
  { gpuUtil := get_metric_series r.gpu
  , gpuMemoryUtil := get_metric_series r.gpuMemory
  , cpuUtil := get_metric_series r.cpu }

/-- `get_gpu_utilization` (automation script): returns
`response['Datapoints'][-1]['Average']` when datapoints exist, `0.0` when
the provider returns zero datapoints, and `0.0` when the call raises. -/
def get_gpu_utilization (resp : Except String (List Datapoint)) : ℚ :=
  match resp with
  | .error _ => 0
  | .ok dps =>
    match dps.getLast? with
    | some d => d.average
    | none => 0

/-! ## ScalingAdvisor — automation script -/

/-- `CostOptimizationConfig` dataclass defaults (automation, lines 23-33). -/
structure CostOptimizationConfig where
  instance_type : String := "g4dn.xlarge"
  max_spot_price : ℚ := 3/4
  target_utilization : ℚ := 70
  scale_down_threshold : ℚ := 20
  idle_timeout_minutes : ℕ := 30
  cost_alert_threshold : ℚ := 50

/-- The module-level `config = CostOptimizationConfig()`. -/
def defaultConfig : CostOptimizationConfig := {}

/-- `check_idle_instances` (automation, lines 178-224): for each ASG
instance, query its GPU utilization datapoints; when datapoints exist and
their average is below `scale_down_threshold` the instance is collected.
The single try/except wraps the whole loop, so a CloudWatch error aborts
the remaining instances and the list collected so far is returned.  (ASG
membership resolution — which instances are queried — is the input.) -/
def check_idle_instances (cfg : CostOptimizationConfig) :
    List (String × Except String (List Datapoint)) → List String
  | [] => []
  | (_, .error _) :: _ => []
  | (iid, .ok dps) :: rest =>
    (if dps ≠ [] ∧ listAvg (dps.map (·.average)) < cfg.scale_down_threshold
     then [iid] else [])
    ++ check_idle_instances cfg rest

/-- A capacity-mutating AWS write issued by the automation script. -/
inductive ScalingAction where
  | setDesiredCapacity (n : ℤ)
deriving DecidableEq

/-- `implement_auto_scaling` (automation, lines 267-316), reduced to the
writes it issues for one ASG state.  `currentUtilization` is the
`get_gpu_utilization()` result; `idleInstances` is the
`check_idle_instances()` result consulted in the scale-down branch.
Scale up: `utilization > target_utilization and capacity < max` issues
`set_desired_capacity(min(capacity+1, max))`.  Scale down (elif):
`utilization < scale_down_threshold and capacity > min` and
`len(idle_instances) > 0` issues `set_desired_capacity(max(capacity-1, min))`. -/
def implement_auto_scaling (cfg : CostOptimizationConfig)
    (currentUtilization : ℚ) (currentCapacity minCapacity maxCapacity : ℤ)
    (idleInstances : List String) : List ScalingAction :=
  if currentUtilization > cfg.target_utilization ∧ currentCapacity < maxCapacity then
    [.setDesiredCapacity (min (currentCapacity + 1) maxCapacity)]
  else if currentUtilization < cfg.scale_down_threshold ∧ currentCapacity > minCapacity then
    if idleInstances.length > 0 then
      [.setDesiredCapacity (max (currentCapacity - 1) minCapacity)]
    else []
  else []

/-- `acts` contains a write lowering the desired capacity below `desired`. -/
def scalesDown (acts : List ScalingAction) (desired : ℤ) : Prop :=
  ∃ n, ScalingAction.setDesiredCapacity n ∈ acts ∧ n < desired

/-- `acts` contains a write raising the desired capacity above `desired`. -/
def scalesUp (acts : List ScalingAction) (desired : ℤ) : Prop :=
  ∃ n, ScalingAction.setDesiredCapacity n ∈ acts ∧ n > desired

/-! ## ScalingAdvisor — lambda script, `optimize_auto_scaling` (lines 351-432) -/

/-- Classification of one scaling activity's description: contains
`'scale up'`, contains `'scale down'`, or neither. -/
inductive ScalingActivity where
  | scaleUp
  | scaleDown
  | other
deriving DecidableEq

/-- `recent_scale_ups` counter (lambda, lines 386-393). -/
def countScaleUps (acts : List ScalingActivity) : ℕ :=
  (acts.filter (· = ScalingActivity.scaleUp)).length

/-- `recent_scale_downs` counter (lambda, lines 386-393). -/
def countScaleDowns (acts : List ScalingActivity) : ℕ :=
  (acts.filter (· = ScalingActivity.scaleDown)).length

/-- One recommendation dict produced for an ASG by the lambda
(`type`, `current`, `recommended`; the `reason` string is elided). -/
structure AsgRecommendation where
  rtype : String
  current : ℤ
  recommended : ℤ
deriving DecidableEq

/-- The lambda's per-ASG recommendation block (lines 396-412):
`reduce_capacity` when `recent_scale_ups == 0 and current_capacity > min_size`
recommending `max(min_size, current_capacity - 1)`;
`increase_max_capacity` when `recent_scale_ups > recent_scale_downs and
max_size < 10` recommending `min(10, max_size + 2)`. -/
def optimize_asg_recommendations (recentScaleUps recentScaleDowns : ℕ)
    (currentCapacity minSize maxSize : ℤ) : List AsgRecommendation :=
  (if recentScaleUps = 0 ∧ currentCapacity > minSize then
    [{ rtype := "reduce_capacity"
     , current := currentCapacity
     , recommended := max minSize (currentCapacity - 1) }]
   else [])
  ++
  (if recentScaleUps > recentScaleDowns ∧ maxSize < 10 then
    [{ rtype := "increase_max_capacity"
     , current := maxSize
     , recommended := min 10 (maxSize + 2) }]
   else [])

/-- One auto-scaling group as the lambda sees it: name, whether it carries
the `Project: AI-Starter-Kit` tag, capacity bounds and its recent scaling
activities. -/
structure AsgInput where
  name : String
  isProjectTagged : Bool
  desired : ℤ
  minSize : ℤ
  maxSize : ℤ
  activities : List ScalingActivity

/-- One entry of the lambda's `optimizations` output list. -/
structure AsgOptimization where
  asg_name : String
  desired : ℤ
  minSize : ℤ
  maxSize : ℤ
  scale_ups : ℕ
  scale_downs : ℕ
  recommendations : List AsgRecommendation
deriving DecidableEq

/-- `optimize_auto_scaling` output: `{'error': ...}` or `{'optimizations': [...]}`. -/
inductive ScalingOptResult where
  | err (msg : String)
  | ok (optimizations : List AsgOptimization)
deriving DecidableEq

/-- `optimize_auto_scaling` (lambda): the whole body is wrapped in one
try/except returning `{'error': str(e)}`; otherwise non-project-tagged
groups are skipped and each remaining group gets its recommendation list. -/
def optimize_auto_scaling (asgResp : Except String (List AsgInput)) : ScalingOptResult :=
  match asgResp with
  | .error e => .err e
  | .ok asgs =>
    .ok ((asgs.filter (·.isProjectTagged)).map fun a =>
      { asg_name := a.name
      , desired := a.desired
      , minSize := a.minSize
      , maxSize := a.maxSize
      , scale_ups := countScaleUps a.activities
      , scale_downs := countScaleDowns a.activities
      , recommendations := optimize_asg_recommendations
          (countScaleUps a.activities) (countScaleDowns a.activities)
          a.desired a.minSize a.maxSize })

/-! ## PriceObserver — `analyze_spot_price_trends` (lambda, lines 50-113) -/

/-- One record of `response['SpotPriceHistory']`: availability zone and
spot price (in the response's order; the code treats `prices[0]` as the
most recent price). -/
structure SpotRecord where
  az : String
  price : ℚ
deriving DecidableEq

/-- Minimum of a non-empty list, Python `min(prices)` (0 on `[]`, which
every call site guards against). -/
def listMin : List ℚ → ℚ
  | [] => 0
  | p :: ps => ps.foldl min p

/-- Maximum of a non-empty list, Python `max(prices)` (0 on `[]`, which
every call site guards against). -/
def listMax : List ℚ → ℚ
  | [] => 0
  | p :: ps => ps.foldl max p

/-- Keys of a Python dict built by insertion: first occurrence order,
duplicates dropped. -/
def firstKeys : List String → List String
  | [] => []
  | a :: l => a :: firstKeys (l.filter (· ≠ a))
termination_by l => l.length
decreasing_by
  exact Nat.lt_succ_of_le (List.length_filter_le _ _)

/-- Per-AZ statistics dict (lambda, lines 88-97). -/
structure AzStats where
  current_price : ℚ
  avg_price : ℚ
  min_price : ℚ
  max_price : ℚ
  price_volatility : ℚ
deriving DecidableEq

/-- The statistics computed for one AZ's price list, under the `if prices:`
guard: `current_price = prices[0]`, average, min, max, and
`price_volatility = (max - min) / min if min(prices) > 0 else 0`. -/
def computeAzStats : List ℚ → Option AzStats
  | [] => none
  | p :: ps =>
    some { current_price := p
         , avg_price := listAvg (p :: ps)
         , min_price := listMin (p :: ps)
         , max_price := listMax (p :: ps)
         , price_volatility :=
             if 0 < listMin (p :: ps)
             then (listMax (p :: ps) - listMin (p :: ps)) / listMin (p :: ps)
             else 0 }

/-- `prices_by_az` grouping followed by the `az_stats` loop: one entry per
distinct AZ (dict insertion order), statistics over that AZ's prices in
response order. -/
def azStatsOf (history : List SpotRecord) : List (String × AzStats) :=
  (firstKeys (history.map (·.az))).filterMap fun z =>
    (computeAzStats ((history.filter (·.az = z)).map (·.price))).map ((z, ·))

/-- Python `min(az_stats.items(), key=lambda x: x[1]['current_price'])`:
first entry of minimal current price (`none` on an empty dict, which the
code guards with `if az_stats`). -/
def minByCurrentPrice : List (String × AzStats) → Option (String × AzStats)
  | [] => none
  | x :: xs =>
    some (xs.foldl (fun acc y => if y.2.current_price < acc.2.current_price then y else acc) x)

/-- `_get_on_demand_price` (lambda, lines 115-142): all exceptions caught
returning `0.0`; an empty matching price list falls through to `0.0`;
otherwise the first price dimension found is returned. -/
def get_on_demand_price : Except String (List ℚ) → ℚ
  | .error _ => 0
  | .ok [] => 0
  | .ok (p :: _) => p

/-- What `price_analysis[instance_type]` holds on success. -/
structure PriceAnalysisOk where
  availability_zones : List (String × AzStats)
  on_demand_price : ℚ
  best_az : Option String
  max_savings_percent : ℚ
deriving DecidableEq

/-- One `price_analysis` entry: inline `{'error': str(e)}` dict or the
success dict. -/
inductive PriceAnalysisEntry where
  | err (msg : String)
  | ok (data : PriceAnalysisOk)
deriving DecidableEq

/-- The per-instance-type body of `analyze_spot_price_trends`: the
try/except around the spot-history lookup makes a failing type degrade to
an inline error dict; on success
`best_az = min(az_stats, key=current_price) if az_stats else None` and
`max_savings_percent = 100 * (1 - min(current prices) / on_demand_price)
if az_stats and on_demand_price > 0 else 0`. -/
def analyze_one (hist : Except String (List SpotRecord)) (onDemand : ℚ) :
    PriceAnalysisEntry :=
  match hist with
  | .error e => .err e
  | .ok history =>
    let stats := azStatsOf history
    .ok { availability_zones := stats
        , on_demand_price := onDemand
        , best_az := (minByCurrentPrice stats).map (·.1)
        , max_savings_percent :=
            if stats ≠ [] ∧ 0 < onDemand
            then 100 * (1 - listMin (stats.map (·.2.current_price)) / onDemand)
            else 0 }

/-- The lambda's fixed GPU instance-type batch (line 54). -/
def instance_types : List String :=
  ["g4dn.xlarge", "g4dn.2xlarge", "g4dn.4xlarge", "g4ad.xlarge", "g5.xlarge"]

/-- The `for instance_type in instance_types` loop of
`analyze_spot_price_trends`, over an arbitrary batch: each type is looked
up independently (`histOf`), its on-demand price fetched (`odOf`), and a
per-type entry recorded. -/
def analyze_spot_price_trends_batch (types : List String)
    (histOf : String → Except String (List SpotRecord))
    (odOf : String → Except String (List ℚ)) :
    List (String × PriceAnalysisEntry) :=
  types.map fun it => (it, analyze_one (histOf it) (get_on_demand_price (odOf it)))

/-- `analyze_spot_price_trends`: the `describe_availability_zones` call
(line 57) is outside any try/except, so its failure propagates; otherwise
the fixed batch is analyzed (the AZ list only parameterizes the provider
query, whose response `histOf` already reflects). -/
def analyze_spot_price_trends (azResp : Except String (List String))
    (histOf : String → Except String (List SpotRecord))
    (odOf : String → Except String (List ℚ)) :
    Except String (List (String × PriceAnalysisEntry)) :=
  match azResp with
  | .error e => .error e
  | .ok _ => .ok (analyze_spot_price_trends_batch instance_types histOf odOf)

/-! ## Savings — automation script (lines 113-149) -/

/-- `get_on_demand_prices` (automation, lines 113-121): fixed table. -/
def on_demand_prices : List (String × ℚ) :=
  [("g4dn.xlarge", 119/100), ("g4dn.2xlarge", 238/100),
   ("g4ad.xlarge", 95/100), ("g5.xlarge", 121/100)]

/-- One `savings_analysis` entry (automation, lines 140-147). -/
structure SavingsEntry where
  spot_price : ℚ
  on_demand_price : ℚ
  hourly_savings : ℚ
  daily_savings : ℚ
  monthly_savings : ℚ
  savings_percent : ℚ
deriving DecidableEq

/-- `calculate_potential_savings` (automation, lines 123-149): for each
spot-priced instance type present in the on-demand table, compute
`hourly = on_demand - spot`, `daily = hourly * 24`,
`monthly = daily * 30`, `percent = (hourly / on_demand) * 100`. -/
def calculate_potential_savings (spotPrices : List (String × ℚ)) :
    List (String × SavingsEntry) :=
  spotPrices.filterMap fun p =>
    match on_demand_prices.lookup p.1 with
    | none => none
    | some od =>
      let hourly := od - p.2
      let daily := hourly * 24
      let monthly := daily * 30
      some (p.1,
        { spot_price := p.2
        , on_demand_price := od
        , hourly_savings := hourly
        , daily_savings := daily
        , monthly_savings := monthly
        , savings_percent := hourly / od * 100 })

/-! ## ReportAssembler — lambda script -/

/-- `hourly_rates` table of `_calculate_instance_cost` (lambda, lines 262-268). -/
def hourly_rates : List (String × ℚ) :=
  [("g4dn.xlarge", 35/100), ("g4dn.2xlarge", 7/10), ("g4dn.4xlarge", 14/10),
   ("g4ad.xlarge", 3/10), ("g5.xlarge", 4/10)]

/-- `_calculate_instance_cost`: table lookup with default rate `0.50`,
times the runtime hours. -/
def calculate_instance_cost (instanceType : String) (runtimeHours : ℚ) : ℚ :=
  ((hourly_rates.lookup instanceType).getD (1/2)) * runtimeHours

/-- One running project-tagged instance as `check_idle_resources` sees it:
identity, type, elapsed runtime in hours, and the three CloudWatch metric
responses for it. -/
structure InstanceInfo where
  instanceId : String
  instanceType : String
  runtimeHours : ℚ
  metrics : MetricResponses

/-- One `idle_resources` entry (narrative strings elided). -/
structure IdleResource where
  instance_id : String
  instance_type : String
  runtime_hours : ℚ
  estimated_cost : ℚ
deriving DecidableEq

/-- `check_idle_resources` (lambda, lines 144-185): the
`describe_instances` call is outside any try/except so its failure
propagates; each running instance is kept iff `_is_instance_idle` holds of
its metrics, with its estimated runtime cost. -/
def check_idle_resources (instResp : Except String (List InstanceInfo)) :
    Except String (List IdleResource) :=
  match instResp with
  | .error e => .error e
  | .ok instances =>
    .ok (instances.filterMap fun i =>
      if is_instance_idle (get_instance_metrics i.metrics)
      then some { instance_id := i.instanceId
                , instance_type := i.instanceType
                , runtime_hours := i.runtimeHours
                , estimated_cost := calculate_instance_cost i.instanceType i.runtimeHours }
      else none)

/-- `get_cost_insights` outcome: the whole body is wrapped in one
try/except returning `{'error': str(e)}`; on success the report consumes
`current_month_cost` (sum of the per-group costs; service breakdown,
forecast narrative and trend fields are elided as no property consumes
them). -/
inductive CostInsightsResult where
  | err (msg : String)
  | ok (current_month_cost : ℚ)
deriving DecidableEq

/-- `get_cost_insights` (lambda, lines 273-349): the cost-and-usage call
and the forecast call can each raise, caught into an inline error dict;
otherwise the total cost is the sum over the returned groups. -/
def get_cost_insights (groupCosts : Except String (List ℚ))
    (forecast : Except String ℚ) : CostInsightsResult :=
  match groupCosts with
  | .error e => .err e
  | .ok cs =>
    match forecast with
    | .error e => .err e
    | .ok _ => .ok cs.sum

/-- Cost thresholds (lambda, lines 38-43, environment defaults). -/
structure CostThresholds where
  daily_warning : ℚ := 50
  daily_critical : ℚ := 100
  monthly_warning : ℚ := 1000
  monthly_critical : ℚ := 2000

/-- One high-level report recommendation (message/action strings elided). -/
structure Recommendation where
  rtype : String
  priority : String
deriving DecidableEq

/-- Spot-savings recommendations (lambda, lines 478-487): error entries
carry no `max_savings_percent` key and are skipped; a success entry with
`max_savings_percent > 60` yields a high-priority recommendation. -/
def spot_recommendations (spot : List (String × PriceAnalysisEntry)) :
    List Recommendation :=
  spot.filterMap fun p =>
    match p.2 with
    | .err _ => none
    | .ok d =>
      if d.max_savings_percent > 60
      then some { rtype := "spot_savings", priority := "high" }
      else none

/-- Idle-resource recommendation (lambda, lines 489-498): one
medium-priority recommendation when any idle resource was found. -/
def idle_recommendations (idle : List IdleResource) : List Recommendation :=
  if idle ≠ [] then [{ rtype := "idle_resources", priority := "medium" }] else []

/-- Cost-threshold recommendations (lambda, lines 500-517): an insights
error dict carries no `current_month_cost` key and is skipped; otherwise
critical above `monthly_critical`, else warning above `monthly_warning`. -/
def cost_recommendations (ci : CostInsightsResult) (th : CostThresholds) :
    List Recommendation :=
  match ci with
  | .err _ => []
  | .ok c =>
    if c > th.monthly_critical then [{ rtype := "cost_alert", priority := "critical" }]
    else if c > th.monthly_warning then [{ rtype := "cost_alert", priority := "warning" }]
    else []

/-- The `recommendations` list assembled in `generate_comprehensive_report`
(lambda, lines 474-519), in source order. -/
def report_recommendations (spot : List (String × PriceAnalysisEntry))
    (idle : List IdleResource) (ci : CostInsightsResult) (th : CostThresholds) :
    List Recommendation :=
  spot_recommendations spot ++ idle_recommendations idle ++ cost_recommendations ci th

/-- `[r for r in recommendations if r['priority'] == 'critical']` (line 522). -/
def critical_recommendations (recs : List Recommendation) : List Recommendation :=
  recs.filter (·.priority = "critical")

/-- The assembled `report` dict (timestamp and region elided). -/
structure CostReport where
  spot_price_analysis : List (String × PriceAnalysisEntry)
  idle_resources : List IdleResource
  cost_insights : CostInsightsResult
  scaling_optimizations : ScalingOptResult
  recommendations : List Recommendation

/-- All provider responses one comprehensive-report run consumes. -/
structure ReportRunInputs where
  azResp : Except String (List String)
  histOf : String → Except String (List SpotRecord)
  odOf : String → Except String (List ℚ)
  instResp : Except String (List InstanceInfo)
  groupCosts : Except String (List ℚ)
  forecast : Except String ℚ
  asgResp : Except String (List AsgInput)
  thresholds : CostThresholds

/-- `generate_comprehensive_report` (lambda, lines 460-530): the four
sections are gathered in order (a spot or idle failure propagates, cost
insights and scaling failures are inline error fields), the
recommendation list is assembled, and `send_cost_alert` is invoked once
iff the critical-priority filter of the recommendations is non-empty.
The second component counts the `send_cost_alert` invocations of the run. -/
def generate_comprehensive_report (inp : ReportRunInputs) :
    Except String (CostReport × ℕ) :=
  match analyze_spot_price_trends inp.azResp inp.histOf inp.odOf with
  | .error e => .error e
  | .ok spot =>
    match check_idle_resources inp.instResp with
    | .error e => .error e
    | .ok idle =>
      let ci := get_cost_insights inp.groupCosts inp.forecast
      let scaling := optimize_auto_scaling inp.asgResp
      let recs := report_recommendations spot idle ci inp.thresholds
      .ok ({ spot_price_analysis := spot
           , idle_resources := idle
           , cost_insights := ci
           , scaling_optimizations := scaling
           , recommendations := recs },
           if critical_recommendations recs ≠ [] then 1 else 0)

/-- A Lambda response body: the serialized result or the serialized
`{'error': str(e)}` dict. -/
inductive LambdaBody where
  | report (r : CostReport)
  | errorBody (msg : String)

/-- The structured `{'statusCode': ..., 'body': ...}` value
`lambda_handler` returns. -/
structure LambdaResponse where
  statusCode : ℕ
  body : LambdaBody

/-- `lambda_handler` (lambda, lines 532-561): the whole body is wrapped in
one try/except; a successful run returns status 200 with the result, any
raised exception is caught and returned as status 500 with an error body. -/
def lambda_handler (run : Except String CostReport) : LambdaResponse :=
  match run with
  | .ok r => { statusCode := 200, body := .report r }
  | .error e => { statusCode := 500, body := .errorBody e }

/-- The default-action path of `lambda_handler`: run
`generate_comprehensive_report` and wrap its outcome. -/
def lambda_handler_comprehensive (inp : ReportRunInputs) : LambdaResponse :=
  lambda_handler ((generate_comprehensive_report inp).map Prod.fst)

end CostOpt

namespace CostOpt

/-! ## Theorems -/

/-- C1, counterexample.  The claim asserts that an empty sample sequence
for any one required metric forces a not-idle verdict, and in particular
that `gpu_util=[], gpu_mem_util=[5], cpu_util=[1]` yields `idle=False`.
The code classifies exactly that input as idle: only the conjunction of
all three series being empty blocks an idle verdict. -/
theorem C1_counterexample_single_empty_metric :
    is_instance_idle ⟨[], [5], [1]⟩ = true := by
  norm_num [is_instance_idle, listAvg]

/-- C1, amended.  If the sample sequences for all three required metrics
are empty, the verdict is "not idle"; an empty sequence for only some
metrics does not by itself disqualify: `gpu_util=[], gpu_mem_util=[5],
cpu_util=[1]` is classified idle. -/
theorem C1_amended_all_empty_not_idle :
    (∀ m : InstanceMetrics,
      m.gpuUtil = [] → m.gpuMemoryUtil = [] → m.cpuUtil = [] →
      is_instance_idle m = false)
    ∧ is_instance_idle ⟨[], [5], [1]⟩ = true := by
  constructor
  · intro m h1 h2 h3
    unfold is_instance_idle
    simp [h1, h2, h3]
  · norm_num [is_instance_idle, listAvg]

/-- C1, witness for the amended theorem at the all-empty input. -/
theorem C1_amended_witness :
    is_instance_idle ⟨[], [], []⟩ = false ∧ is_instance_idle ⟨[], [5], [1]⟩ = true :=
  ⟨C1_amended_all_empty_not_idle.1 ⟨[], [], []⟩ rfl rfl rfl,
   C1_amended_all_empty_not_idle.2⟩

/-- C4: when all three metric series are non-empty, the classifier
answers idle exactly when all three averages are strictly below their
thresholds (5.0, 10.0, 10.0). -/
theorem C4_idle_iff_conjunctive_thresholds (m : InstanceMetrics)
    (h1 : m.gpuUtil ≠ []) (h2 : m.gpuMemoryUtil ≠ []) (h3 : m.cpuUtil ≠ []) :
    is_instance_idle m = true ↔
      listAvg m.gpuUtil < 5 ∧ listAvg m.gpuMemoryUtil < 10 ∧ listAvg m.cpuUtil < 10 := by
  unfold is_instance_idle
  split_ifs with a b c d
  · simp only [Bool.false_eq_true, false_iff]
    intro hconj
    exact absurd a.2 (not_le.mpr hconj.1)
  · simp only [Bool.false_eq_true, false_iff]
    intro hconj
    exact absurd b.2 (not_le.mpr hconj.2.1)
  · simp only [Bool.false_eq_true, false_iff]
    intro hconj
    exact absurd c.2 (not_le.mpr hconj.2.2)
  · exact absurd d.1 h1
  · simp only [true_iff]
    push_neg at a b c
    exact ⟨a h1, b h2, c h3⟩

/-- C4, witness: `gpu_util=[2,3,4], gpu_mem_util=[5,6], cpu_util=[1,2]`
(averages 3, 5.5, 1.5) is classified idle. -/
theorem C4_witness :
    is_instance_idle ⟨[2, 3, 4], [5, 6], [1, 2]⟩ = true ∧
    listAvg [2, 3, 4] = 3 ∧ listAvg [5, 6] = 11 / 2 ∧ listAvg [1, 2] = 3 / 2 :=
  ⟨(C4_idle_iff_conjunctive_thresholds ⟨[2, 3, 4], [5, 6], [1, 2]⟩
      (by simp) (by simp) (by simp)).mpr
      ⟨by norm_num [listAvg], by norm_num [listAvg], by norm_num [listAvg]⟩,
   by norm_num [listAvg], by norm_num [listAvg], by norm_num [listAvg]⟩

end CostOpt

namespace CostOpt

/-- C2, counterexample.  The claim asserts that no consumer of utilization
data treats absence of data as zero utilization, and in particular that
the utilization fed into scaling decisions is never 0.0 merely because no
data points were returned.  The automation script's `get_gpu_utilization`
returns exactly 0.0 on an empty datapoint response, and that value, fed
into `implement_auto_scaling`, drives a scale-down of an ASG at capacity
3 with an idle instance reported. -/
theorem C2_counterexample_no_data_is_zero :
    get_gpu_utilization (Except.ok []) = 0 ∧
    implement_auto_scaling defaultConfig (get_gpu_utilization (Except.ok []))
      3 1 5 ["i-0abc"] = [ScalingAction.setDesiredCapacity 2] := by
  constructor
  · rfl
  · norm_num [implement_auto_scaling, get_gpu_utilization, defaultConfig]

/-- C2, amended.  The lambda's metric observer returns an empty sequence
(rather than failing) when the provider returns zero data points or the
call raises, and orders samples ascending by timestamp; however, the
automation script's `get_gpu_utilization` returns 0.0 when the provider
returns zero data points, so the utilization value fed into scaling
decisions is 0.0 when no data was returned. -/
theorem C2_amended_no_data_handling :
    (∀ e, get_metric_series (Except.error e) = []) ∧
    get_metric_series (Except.ok []) = [] ∧
    (∀ dps, (sortDatapoints dps).Pairwise (fun a b => a.timestamp ≤ b.timestamp)) ∧
    get_gpu_utilization (Except.ok []) = 0 := by
  refine ⟨fun e => rfl, by simp [get_metric_series, sortDatapoints], fun dps => ?_, rfl⟩
  have h := @List.sorted_mergeSort Datapoint
    (fun a b => decide (a.timestamp ≤ b.timestamp))
    (by intro a b c hab hbc; simp_all; omega)
    (by intro a b; simp [Bool.or_eq_true]; omega) dps
  exact h.imp (by intro a b hab; simpa using hab)

/-- C2, witness for the amended theorem at concrete inputs (an error
response, and an out-of-order two-point response). -/
theorem C2_amended_witness :
    get_metric_series (Except.error "Throttling") = [] ∧
    (sortDatapoints [⟨2, 5⟩, ⟨1, 7⟩]).Pairwise (fun a b => a.timestamp ≤ b.timestamp) ∧
    get_gpu_utilization (Except.ok []) = 0 :=
  ⟨C2_amended_no_data_handling.1 "Throttling",
   C2_amended_no_data_handling.2.2.1 [⟨2, 5⟩, ⟨1, 7⟩],
   C2_amended_no_data_handling.2.2.2⟩

end CostOpt

namespace CostOpt

/-- C3, counterexample.  The claim asserts that a scale-down is produced
only when utilization is strictly below the low threshold, desired > min,
and at least one instance was independently confirmed idle.  The lambda's
`optimize_auto_scaling` (its recommendation block, lines 396-404) emits a
capacity-lowering `reduce_capacity` recommendation for an ASG at
desired=2, min=1 purely because no recent scale-up activity was counted:
its inputs carry no utilization signal and no idle verdict at all, so the
claimed gating cannot hold of it. -/
theorem C3_counterexample_ungated_reduce_capacity :
    optimize_asg_recommendations 0 0 2 1 5 =
      [{ rtype := "reduce_capacity", current := 2, recommended := 1 }] := by
  simp [optimize_asg_recommendations]

/-- C3, amended.  In the automation script, a scale-down write is issued
only when utilization is strictly below the low threshold (default 20),
desired > min, and `check_idle_instances` confirmed at least one idle
instance, and it lowers desired by exactly 1; when desired == min no
scale-down write is ever issued.  In the lambda script, a
`reduce_capacity` recommendation is produced exactly when no recent
scale-up activity was counted and desired > min — without utilization or
idle gating — also lowering desired by exactly 1 (bounded at min) and
never when desired == min. -/
theorem C3_amended_scale_down_gating :
    (∀ (util : ℚ) (desired mn mx : ℤ) (idle : List String),
      scalesDown (implement_auto_scaling defaultConfig util desired mn mx idle) desired →
        util < 20 ∧ desired > mn ∧ idle ≠ [] ∧
        implement_auto_scaling defaultConfig util desired mn mx idle =
          [ScalingAction.setDesiredCapacity (desired - 1)])
    ∧ (∀ (util : ℚ) (mn mx : ℤ) (idle : List String),
        ¬ scalesDown (implement_auto_scaling defaultConfig util mn mn mx idle) mn)
    ∧ (∀ (ups downs : ℕ) (cap mn mx : ℤ),
        (optimize_asg_recommendations ups downs cap mn mx).filter
            (fun r => r.rtype = "reduce_capacity") =
          if ups = 0 ∧ cap > mn then
            [{ rtype := "reduce_capacity", current := cap, recommended := cap - 1 }]
          else []) := by
  have hmain : ∀ (util : ℚ) (desired mn mx : ℤ) (idle : List String),
      scalesDown (implement_auto_scaling defaultConfig util desired mn mx idle) desired →
        util < 20 ∧ desired > mn ∧ idle ≠ [] ∧
        implement_auto_scaling defaultConfig util desired mn mx idle =
          [ScalingAction.setDesiredCapacity (desired - 1)] := by
    intro util desired mn mx idle hdown
    unfold implement_auto_scaling at hdown ⊢
    simp only [defaultConfig] at hdown ⊢
    split_ifs at hdown ⊢ with h1 h2 h3
    · obtain ⟨n, hmem, hlt⟩ := hdown
      simp only [List.mem_singleton, ScalingAction.setDesiredCapacity.injEq] at hmem
      subst hmem
      have : min (desired + 1) mx = desired + 1 := min_eq_left (by omega)
      omega
    · refine ⟨h2.1, h2.2, ?_, ?_⟩
      · intro hnil
        simp [hnil] at h3
      · have : max (desired - 1) mn = desired - 1 := max_eq_left (by omega)
        rw [this]
    · exact absurd hdown (by simp [scalesDown])
    · exact absurd hdown (by simp [scalesDown])
  refine ⟨hmain, ?_, ?_⟩
  · intro util mn mx idle hdown
    have h := hmain util mn mn mx idle hdown
    omega
  · intro ups downs cap mn mx
    unfold optimize_asg_recommendations
    split_ifs with h1 h2 h2
    · have : max mn (cap - 1) = cap - 1 := max_eq_right (by omega)
      simp [List.filter, this]
    · have : max mn (cap - 1) = cap - 1 := max_eq_right (by omega)
      simp [List.filter, this]
    · simp [List.filter]
    · simp [List.filter]

/-- C3, witness for the amended theorem: a concrete automation scale-down
(utilization 10, desired 3, min 1, one confirmed-idle instance) and the
concrete lambda recommendation filter at ups=0, cap=2, min=1. -/
theorem C3_amended_witness :
    ((10 : ℚ) < 20 ∧ (3 : ℤ) > 1 ∧ (["i-0abc"] : List String) ≠ [] ∧
      implement_auto_scaling defaultConfig 10 3 1 5 ["i-0abc"] =
        [ScalingAction.setDesiredCapacity 2]) ∧
    ¬ scalesDown (implement_auto_scaling defaultConfig 10 1 1 5 ["i-0abc"]) 1 ∧
    (optimize_asg_recommendations 0 0 2 1 5).filter
        (fun r => r.rtype = "reduce_capacity") =
      [{ rtype := "reduce_capacity", current := 2, recommended := 1 }] := by
  refine ⟨?_, C3_amended_scale_down_gating.2.1 10 1 5 ["i-0abc"], ?_⟩
  · have hacts : implement_auto_scaling defaultConfig 10 3 1 5 ["i-0abc"] =
        [ScalingAction.setDesiredCapacity 2] := by
      norm_num [implement_auto_scaling, defaultConfig]
    have hdown : scalesDown (implement_auto_scaling defaultConfig 10 3 1 5 ["i-0abc"]) 3 := by
      rw [hacts]
      exact ⟨2, by simp, by norm_num⟩
    simpa using C3_amended_scale_down_gating.1 10 3 1 5 ["i-0abc"] hdown
  · have h := C3_amended_scale_down_gating.2.2 0 0 2 1 5
    simpa using h

end CostOpt

namespace CostOpt

/-- C5: the automation script issues a scale-up write exactly when
utilization strictly exceeds the target threshold (default 70) and
desired < max; the write raises desired by exactly 1 (never a jump); and
when desired == max no scale-up is ever issued. -/
theorem C5_scale_up_exactly (util : ℚ) (desired mn mx : ℤ) (idle : List String) :
    (scalesUp (implement_auto_scaling defaultConfig util desired mn mx idle) desired ↔
      util > 70 ∧ desired < mx)
    ∧ (util > 70 → desired < mx →
        implement_auto_scaling defaultConfig util desired mn mx idle =
          [ScalingAction.setDesiredCapacity (desired + 1)])
    ∧ (desired = mx →
        ¬ scalesUp (implement_auto_scaling defaultConfig util desired mn mx idle) desired) := by
  have hbranch : util > 70 → desired < mx →
      implement_auto_scaling defaultConfig util desired mn mx idle =
        [ScalingAction.setDesiredCapacity (desired + 1)] := by
    intro hu hd
    unfold implement_auto_scaling
    simp only [defaultConfig]
    rw [if_pos ⟨hu, hd⟩, min_eq_left (by omega)]
  have hiff : scalesUp (implement_auto_scaling defaultConfig util desired mn mx idle) desired ↔
      util > 70 ∧ desired < mx := by
    constructor
    · intro hup
      unfold implement_auto_scaling at hup
      simp only [defaultConfig] at hup
      split_ifs at hup with h1 h2 h3
      · exact h1
      · obtain ⟨n, hmem, hlt⟩ := hup
        simp only [List.mem_singleton, ScalingAction.setDesiredCapacity.injEq] at hmem
        subst hmem
        have : max (desired - 1) mn = desired - 1 := max_eq_left (by omega)
        omega
      · exact absurd hup (by simp [scalesUp])
      · exact absurd hup (by simp [scalesUp])
    · intro ⟨hu, hd⟩
      rw [hbranch hu hd]
      exact ⟨desired + 1, by simp, by omega⟩
  refine ⟨hiff, hbranch, fun hmax hup => ?_⟩
  have h := hiff.mp hup
  omega

/-- C5, witness: desired=3, min=1, max=5, utilization=85% yields the
scale-up write to 4, and it is a scale-up. -/
theorem C5_witness :
    implement_auto_scaling defaultConfig 85 3 1 5 [] =
      [ScalingAction.setDesiredCapacity 4] ∧
    scalesUp (implement_auto_scaling defaultConfig 85 3 1 5 []) 3 :=
  have h := C5_scale_up_exactly 85 3 1 5 []
  ⟨h.2.1 (by norm_num) (by norm_num),
   (h.1).mpr ⟨by norm_num, by norm_num⟩⟩

/-- C7, counterexample.  The claim asserts that no component of the
pipeline ever applies a capacity change automatically.  The automation
script's `implement_auto_scaling` takes no operator-confirmation input of
any kind and, at utilization 85% with an ASG at desired=3, min=1, max=5,
directly issues the capacity-mutating write `set_desired_capacity(4)`. -/
theorem C7_counterexample_auto_applied_write :
    implement_auto_scaling defaultConfig 85 3 1 5 [] =
      [ScalingAction.setDesiredCapacity 4] ∧
    implement_auto_scaling defaultConfig 85 3 1 5 [] ≠ [] := by
  constructor
  · unfold implement_auto_scaling
    simp only [defaultConfig]
    rw [if_pos ⟨by norm_num, by norm_num⟩, min_eq_left (by omega)]
    norm_num
  · unfold implement_auto_scaling
    simp only [defaultConfig]
    rw [if_pos ⟨by norm_num, by norm_num⟩]
    simp

/-- C7, amended.  The lambda script's scaling output is advisory
(recommendation dicts only), but the automation script applies capacity
changes automatically: it issues a `set_desired_capacity` write — with no
operator confirmation — exactly when utilization exceeds the target and
desired < max, or utilization is below the low threshold, desired > min,
and at least one idle instance was detected. -/
theorem C7_amended_write_characterization (util : ℚ) (desired mn mx : ℤ)
    (idle : List String) :
    implement_auto_scaling defaultConfig util desired mn mx idle ≠ [] ↔
      (util > 70 ∧ desired < mx) ∨ (util < 20 ∧ desired > mn ∧ idle ≠ []) := by
  unfold implement_auto_scaling
  simp only [defaultConfig]
  split_ifs with h1 h2 h3
  · simp only [ne_eq, List.cons_ne_nil, not_false_eq_true, true_iff]
    exact Or.inl h1
  · simp only [ne_eq, List.cons_ne_nil, not_false_eq_true, true_iff]
    refine Or.inr ⟨h2.1, h2.2, fun hnil => ?_⟩
    simp [hnil] at h3
  · simp only [ne_eq, not_true_eq_false, false_iff]
    push_neg at h1 ⊢
    refine ⟨h1, fun _ _ => ?_⟩
    simpa using h3
  · simp only [ne_eq, not_true_eq_false, false_iff]
    push_neg at h1 ⊢
    exact ⟨h1, fun hl hd => absurd ⟨hl, hd⟩ h2⟩

/-- C7, witness for the amended characterization at utilization 85,
desired 3, min 1, max 5. -/
theorem C7_amended_witness :
    implement_auto_scaling defaultConfig 85 3 1 5 [] ≠ [] :=
  (C7_amended_write_characterization 85 3 1 5 []).mpr
    (Or.inl ⟨by norm_num, by norm_num⟩)

end CostOpt

namespace CostOpt

/-- Structure of a successful comprehensive-report run: the idle section
is exactly the idle checker's output on the instance response, the
scaling section is exactly the scaling optimizer's output on the ASG
response, cost insights come from the cost responses, the recommendation
list is assembled from the sections, and the alert count is 1 iff a
critical-priority recommendation is present. -/
theorem generate_report_sections (inp : ReportRunInputs) (r : CostReport) (n : ℕ)
    (h : generate_comprehensive_report inp = .ok (r, n)) :
    check_idle_resources inp.instResp = .ok r.idle_resources ∧
    r.scaling_optimizations = optimize_auto_scaling inp.asgResp ∧
    r.cost_insights = get_cost_insights inp.groupCosts inp.forecast ∧
    r.recommendations = report_recommendations r.spot_price_analysis r.idle_resources
      r.cost_insights inp.thresholds ∧
    n = (if critical_recommendations r.recommendations ≠ [] then 1 else 0) ∧
    analyze_spot_price_trends inp.azResp inp.histOf inp.odOf = .ok r.spot_price_analysis := by
  unfold generate_comprehensive_report at h
  cases hspot : analyze_spot_price_trends inp.azResp inp.histOf inp.odOf with
  | error e => rw [hspot] at h; exact absurd h (by simp)
  | ok spot =>
    rw [hspot] at h
    cases hidle : check_idle_resources inp.instResp with
    | error e => rw [hidle] at h; exact absurd h (by simp)
    | ok idle =>
      rw [hidle] at h
      simp only [Except.ok.injEq, Prod.mk.injEq] at h
      obtain ⟨hr, hn⟩ := h
      subst hr
      exact ⟨rfl, rfl, rfl, rfl, hn.symm, rfl⟩

/-- C6: in the lambda's per-type spot-price loop, every queried instance
type appears in the output; a type whose lookup raised is reported with
an inline error entry while every type whose lookup succeeded still gets
a price-data entry; and the assembled report's idle and scaling sections
depend only on the instance and ASG responses, so they are unchanged
across price-observer failures. -/
theorem C6_price_lookup_partial_failure :
    (∀ (types : List String) (histOf : String → Except String (List SpotRecord))
        (odOf : String → Except String (List ℚ)),
      (analyze_spot_price_trends_batch types histOf odOf).map Prod.fst = types)
    ∧ (∀ types histOf odOf it e, it ∈ types → histOf it = .error e →
        (it, PriceAnalysisEntry.err e) ∈ analyze_spot_price_trends_batch types histOf odOf)
    ∧ (∀ types histOf odOf it hist, it ∈ types → histOf it = .ok hist →
        ∃ d, (it, PriceAnalysisEntry.ok d) ∈ analyze_spot_price_trends_batch types histOf odOf)
    ∧ (∀ inp inp' : ReportRunInputs,
        inp'.instResp = inp.instResp → inp'.asgResp = inp.asgResp →
        ∀ r n r' n', generate_comprehensive_report inp = .ok (r, n) →
          generate_comprehensive_report inp' = .ok (r', n') →
          r'.idle_resources = r.idle_resources ∧
          r'.scaling_optimizations = r.scaling_optimizations) := by
  refine ⟨?_, ?_, ?_, ?_⟩
  · intro types histOf odOf
    induction types with
    | nil => simp [analyze_spot_price_trends_batch]
    | cons t ts ih => simp_all [analyze_spot_price_trends_batch]
  · intro types histOf odOf it e hit heq
    have h : (it, analyze_one (histOf it) (get_on_demand_price (odOf it))) ∈
        analyze_spot_price_trends_batch types histOf odOf :=
      List.mem_map_of_mem _ hit
    rw [heq] at h
    simpa [analyze_one] using h
  · intro types histOf odOf it hist hit heq
    have h : (it, analyze_one (histOf it) (get_on_demand_price (odOf it))) ∈
        analyze_spot_price_trends_batch types histOf odOf :=
      List.mem_map_of_mem _ hit
    rw [heq] at h
    exact ⟨_, by simpa [analyze_one] using h⟩
  · intro inp inp' hinst hasg r n r' n' h h'
    obtain ⟨hidle, hscale, -⟩ := generate_report_sections inp r n h
    obtain ⟨hidle', hscale', -⟩ := generate_report_sections inp' r' n' h'
    rw [hinst, hidle] at hidle'
    refine ⟨(Except.ok.inj hidle').symm, ?_⟩
    rw [hscale, hscale', hasg]

end CostOpt

namespace CostOpt

/-- Test fixture: a two-type batch where the first type's spot lookup
raises and the second succeeds. -/
def sampleHist : String → Except String (List SpotRecord) := fun it =>
  if it = "g4dn.xlarge" then .error "RequestLimitExceeded"
  else .ok [{ az := "use1-az1", price := 1/2 }]

/-- Test fixture: on-demand price responses. -/
def sampleOd : String → Except String (List ℚ) := fun _ => .ok [119/100]

/-- Test fixture: a run whose spot lookups all fail and whose other
providers return empty data (ASG lookup failing, caught inline). -/
def sampleInputsSpotDown : ReportRunInputs :=
  { azResp := .ok ["use1-az1"]
  , histOf := fun _ => .error "RequestLimitExceeded"
  , odOf := fun _ => .ok []
  , instResp := .ok []
  , groupCosts := .ok []
  , forecast := .ok 0
  , asgResp := .error "AccessDenied"
  , thresholds := {} }

/-- Test fixture: identical except the spot lookups succeed (empty history). -/
def sampleInputsSpotUp : ReportRunInputs :=
  { sampleInputsSpotDown with histOf := fun _ => .ok [] }

/-- C6, witness: concrete two-type batch with one failing lookup, and two
concrete runs differing only in spot-observer outcome whose idle and
scaling sections agree. -/
theorem C6_witness :
    ((analyze_spot_price_trends_batch ["g4dn.xlarge", "g5.xlarge"] sampleHist sampleOd).map
        Prod.fst = ["g4dn.xlarge", "g5.xlarge"])
    ∧ ("g4dn.xlarge", PriceAnalysisEntry.err "RequestLimitExceeded") ∈
        analyze_spot_price_trends_batch ["g4dn.xlarge", "g5.xlarge"] sampleHist sampleOd
    ∧ (∃ d, ("g5.xlarge", PriceAnalysisEntry.ok d) ∈
        analyze_spot_price_trends_batch ["g4dn.xlarge", "g5.xlarge"] sampleHist sampleOd)
    ∧ (∃ r n r' n',
        generate_comprehensive_report sampleInputsSpotDown = .ok (r, n) ∧
        generate_comprehensive_report sampleInputsSpotUp = .ok (r', n') ∧
        r'.idle_resources = r.idle_resources ∧
        r'.scaling_optimizations = r.scaling_optimizations) := by
  refine ⟨?_, ?_, ?_, ?_⟩
  · exact C6_price_lookup_partial_failure.1 ["g4dn.xlarge", "g5.xlarge"] sampleHist sampleOd
  · exact C6_price_lookup_partial_failure.2.1 ["g4dn.xlarge", "g5.xlarge"] sampleHist sampleOd
      "g4dn.xlarge" "RequestLimitExceeded" (by simp) (by simp [sampleHist])
  · exact C6_price_lookup_partial_failure.2.2.1 ["g4dn.xlarge", "g5.xlarge"] sampleHist sampleOd
      "g5.xlarge" [{ az := "use1-az1", price := 1/2 }] (by simp) (by simp [sampleHist])
  · obtain ⟨r, n, hr⟩ : ∃ r n, generate_comprehensive_report sampleInputsSpotDown = .ok (r, n) :=
      ⟨_, _, rfl⟩
    obtain ⟨r', n', hr'⟩ : ∃ r n, generate_comprehensive_report sampleInputsSpotUp = .ok (r, n) :=
      ⟨_, _, rfl⟩
    exact ⟨r, n, r', n', hr, hr',
      C6_price_lookup_partial_failure.2.2.2 sampleInputsSpotDown sampleInputsSpotUp
        rfl rfl r n r' n' hr hr'⟩

end CostOpt

namespace CostOpt

/-- Every spot-savings recommendation carries priority "high". -/
theorem spot_recommendations_priority (spot : List (String × PriceAnalysisEntry)) :
    ∀ r ∈ spot_recommendations spot, r.priority = "high" := by
  intro r hr
  simp only [spot_recommendations, List.mem_filterMap] at hr
  obtain ⟨p, -, hp⟩ := hr
  rcases h2 : p.2 with m | d
  · rw [h2] at hp
    simp at hp
  · rw [h2] at hp
    have hp2 : (if d.max_savings_percent > 60
        then some { rtype := "spot_savings", priority := "high" }
        else none) = some r := hp
    by_cases hgt : d.max_savings_percent > 60
    · rw [if_pos hgt] at hp2
      cases hp2
      rfl
    · rw [if_neg hgt] at hp2
      cases hp2

/-- A critical-priority recommendation is present in an assembled
recommendation list exactly when the cost insights succeeded with a
current month cost above the critical threshold: the spot, idle and
warning recommendation producers never emit priority "critical". -/
theorem critical_iff_cost_breach (spot : List (String × PriceAnalysisEntry))
    (idle : List IdleResource) (ci : CostInsightsResult) (th : CostThresholds) :
    critical_recommendations (report_recommendations spot idle ci th) ≠ [] ↔
      ∃ c, ci = CostInsightsResult.ok c ∧ c > th.monthly_critical := by
  have hspot : critical_recommendations (spot_recommendations spot) = [] := by
    rw [critical_recommendations, List.filter_eq_nil_iff]
    intro r hr
    have := spot_recommendations_priority spot r hr
    simp [this]
  have hidle : critical_recommendations (idle_recommendations idle) = [] := by
    rw [critical_recommendations, List.filter_eq_nil_iff]
    intro r hr
    unfold idle_recommendations at hr
    split_ifs at hr with h
    · simp only [List.mem_singleton] at hr
      subst hr
      simp
    · simp at hr
  rw [report_recommendations, critical_recommendations, List.filter_append,
    List.filter_append]
  rw [critical_recommendations] at hspot hidle
  rw [hspot, hidle]
  simp only [List.nil_append]
  rcases ci with m | c
  · simp [cost_recommendations]
  · simp only [cost_recommendations]
    split_ifs with h1 h2
    · constructor
      · intro _
        exact ⟨c, rfl, h1⟩
      · intro _
        simp
    · have hf : List.filter (fun x => decide (x.priority = "critical"))
          [({ rtype := "cost_alert", priority := "warning" } : Recommendation)] = [] := by
        simp
      rw [hf]
      constructor
      · intro hne
        exact absurd rfl hne
      · intro ⟨c2, hc2, hgt⟩
        cases hc2
        exact absurd hgt h1
    · simp only [List.filter_nil]
      constructor
      · intro hne
        exact absurd rfl hne
      · intro ⟨c2, hc2, hgt⟩
        cases hc2
        exact absurd hgt h1

end CostOpt

namespace CostOpt

/-- C8: in every comprehensive-report run, the number of alert dispatches
(`send_cost_alert` invocations) is at most 1; it is exactly 1 iff the
cost insights succeeded with a current month cost above the critical
threshold (the only producer of a critical-priority recommendation); and
when no critical-priority recommendation is present no alert is
dispatched. -/
theorem C8_at_most_one_alert_dispatch (inp : ReportRunInputs) (r : CostReport) (n : ℕ)
    (h : generate_comprehensive_report inp = .ok (r, n)) :
    n ≤ 1 ∧
    (n = 1 ↔ ∃ c, get_cost_insights inp.groupCosts inp.forecast = .ok c ∧
        c > inp.thresholds.monthly_critical) ∧
    (critical_recommendations r.recommendations = [] → n = 0) := by
  obtain ⟨-, -, hci, hrecs, hn, -⟩ := generate_report_sections inp r n h
  have hcrit : critical_recommendations r.recommendations ≠ [] ↔
      ∃ c, get_cost_insights inp.groupCosts inp.forecast = .ok c ∧
        c > inp.thresholds.monthly_critical := by
    rw [hrecs, ← hci]
    exact critical_iff_cost_breach _ _ _ _
  refine ⟨?_, ?_, ?_⟩
  · rw [hn]
    by_cases hc : critical_recommendations r.recommendations ≠ []
    · rw [if_pos hc]
    · rw [if_neg hc]
      omega
  · rw [hn]
    by_cases hc : critical_recommendations r.recommendations ≠ []
    · rw [if_pos hc]
      exact ⟨fun _ => hcrit.mp hc, fun _ => rfl⟩
    · rw [if_neg hc]
      exact ⟨fun h01 => absurd h01 (by omega), fun hex => absurd (hcrit.mpr hex) hc⟩
  · intro hzero
    rw [hn, if_neg (by simp [hzero])]

/-- Test fixture: a run whose (empty) month cost exceeds a negative
critical threshold, so a critical recommendation and one alert dispatch
are produced. -/
def sampleInputsCritical : ReportRunInputs :=
  { sampleInputsSpotDown with
    thresholds := { monthly_warning := -2, monthly_critical := -1 } }

/-- C8, witness: a concrete run dispatching exactly one alert, with the
cost breach that caused it. -/
theorem C8_witness :
    (1 : ℕ) ≤ 1 ∧
    ∃ r c, generate_comprehensive_report sampleInputsCritical = .ok (r, 1) ∧
      get_cost_insights sampleInputsCritical.groupCosts sampleInputsCritical.forecast =
        .ok c ∧
      c > sampleInputsCritical.thresholds.monthly_critical := by
  obtain ⟨r, hr⟩ : ∃ r, generate_comprehensive_report sampleInputsCritical = .ok (r, 1) :=
    ⟨_, rfl⟩
  have h := C8_at_most_one_alert_dispatch sampleInputsCritical r 1 hr
  obtain ⟨c, hc1, hc2⟩ := h.2.1.mp rfl
  exact ⟨h.1, r, c, hr, hc1, hc2⟩

end CostOpt

namespace CostOpt

/-- C9: the lambda entry point never propagates an exception: every run
maps to a structured response (status 200 with the report, or status 500
with the caught error as a structured error body); and when every
sub-component provider fails in its caught mode (all spot lookups raise,
cost explorer raises, ASG lookup raises) while the two unguarded listing
calls return, the handler still returns status 200 with a report whose
spot entries are all inline errors and whose cost-insights and scaling
sections are inline error fields. -/
theorem C9_handler_structured_result (inp : ReportRunInputs) :
    ((lambda_handler_comprehensive inp).statusCode = 200 ∨
      (lambda_handler_comprehensive inp).statusCode = 500) ∧
    (∀ e, (generate_comprehensive_report inp).map Prod.fst = .error e →
      lambda_handler_comprehensive inp = { statusCode := 500, body := .errorBody e }) ∧
    (∀ (azs : List String) (instances : List InstanceInfo) (e1 e2 e3 : String),
      inp.azResp = .ok azs → inp.instResp = .ok instances →
      (∀ it, inp.histOf it = .error e1) →
      inp.groupCosts = .error e2 → inp.asgResp = .error e3 →
      ∃ r, lambda_handler_comprehensive inp = { statusCode := 200, body := .report r } ∧
        (∀ p ∈ r.spot_price_analysis, p.2 = PriceAnalysisEntry.err e1) ∧
        r.cost_insights = .err e2 ∧
        r.scaling_optimizations = .err e3) := by
  refine ⟨?_, ?_, ?_⟩
  · rcases hgen : (generate_comprehensive_report inp).map Prod.fst with e | rep
    · right
      unfold lambda_handler_comprehensive lambda_handler
      rw [hgen]
    · left
      unfold lambda_handler_comprehensive lambda_handler
      rw [hgen]
  · intro e he
    unfold lambda_handler_comprehensive lambda_handler
    rw [he]
  · intro azs instances e1 e2 e3 haz hinst hhist hgc hasg
    obtain ⟨r, n, hr⟩ : ∃ r n, generate_comprehensive_report inp = .ok (r, n) := by
      unfold generate_comprehensive_report analyze_spot_price_trends check_idle_resources
      rw [haz, hinst]
      exact ⟨_, _, rfl⟩
    obtain ⟨-, hscale, hci, -, -, hspot⟩ := generate_report_sections inp r n hr
    refine ⟨r, ?_, ?_, ?_, ?_⟩
    · unfold lambda_handler_comprehensive lambda_handler
      rw [hr]
      rfl
    · rw [haz] at hspot
      unfold analyze_spot_price_trends at hspot
      have hbatch : analyze_spot_price_trends_batch instance_types inp.histOf inp.odOf =
          r.spot_price_analysis := Except.ok.inj hspot
      rw [← hbatch]
      intro p hp
      simp only [analyze_spot_price_trends_batch, List.mem_map] at hp
      obtain ⟨it, -, hit⟩ := hp
      rw [← hit]
      simp [analyze_one, hhist it]
    · rw [hci, hgc]
      rfl
    · rw [hscale, hasg]
      rfl

/-- Test fixture: a run where every caught provider call fails and the
unguarded listing calls return empty lists. -/
def sampleInputsAllDown : ReportRunInputs :=
  { azResp := .ok []
  , histOf := fun _ => .error "ServiceUnavailable"
  , odOf := fun _ => .error "ServiceUnavailable"
  , instResp := .ok []
  , groupCosts := .error "ThrottlingException"
  , forecast := .error "ThrottlingException"
  , asgResp := .error "AccessDenied"
  , thresholds := {} }

/-- Test fixture: as above but the unguarded availability-zone listing
itself raises, so the whole report body raises and the handler catches. -/
def sampleInputsAzDown : ReportRunInputs :=
  { sampleInputsAllDown with azResp := .error "EndpointTimeout" }

/-- C9, witness: the all-providers-down run yields status 200 with
error-flagged sections, and the listing-call-down run yields the
structured status-500 error response; no exception escapes either way. -/
theorem C9_witness :
    ((lambda_handler_comprehensive sampleInputsAllDown).statusCode = 200 ∨
      (lambda_handler_comprehensive sampleInputsAllDown).statusCode = 500) ∧
    (∃ r, lambda_handler_comprehensive sampleInputsAllDown =
        { statusCode := 200, body := .report r } ∧
      (∀ p ∈ r.spot_price_analysis, p.2 = PriceAnalysisEntry.err "ServiceUnavailable") ∧
      r.cost_insights = .err "ThrottlingException" ∧
      r.scaling_optimizations = .err "AccessDenied") ∧
    lambda_handler_comprehensive sampleInputsAzDown =
      { statusCode := 500, body := .errorBody "EndpointTimeout" } := by
  refine ⟨(C9_handler_structured_result sampleInputsAllDown).1, ?_, ?_⟩
  · exact (C9_handler_structured_result sampleInputsAllDown).2.2 [] []
      "ServiceUnavailable" "ThrottlingException" "AccessDenied"
      rfl rfl (fun _ => rfl) rfl rfl
  · exact (C9_handler_structured_result sampleInputsAzDown).2.1 "EndpointTimeout" rfl

end CostOpt

namespace CostOpt

/-- Every on-demand price the automation's fixed table can return is
strictly positive and drawn from the table. -/
theorem on_demand_lookup_pos (k : String) (od : ℚ)
    (h : on_demand_prices.lookup k = some od) :
    0 < od ∧ od ∈ on_demand_prices.map Prod.snd := by
  simp only [on_demand_prices, List.lookup] at h
  repeat' split at h
  all_goals simp at h
  all_goals subst h
  all_goals exact ⟨by norm_num, by simp [on_demand_prices]⟩

/-- C10: no price computation divides by zero.  `price_volatility` is 0
unless `min(prices) > 0`, in which case it is `(max - min) / min`;
`max_savings_percent` is 0 whenever the on-demand price is not positive;
every entry of the fixed on-demand price table is strictly positive; and
every savings entry divides only by an on-demand price drawn from that
table (hence strictly positive). -/
theorem C10_no_division_by_zero :
    (∀ (prices : List ℚ) (s : AzStats), computeAzStats prices = some s →
      (s.min_price ≤ 0 → s.price_volatility = 0) ∧
      (0 < s.min_price →
        s.price_volatility = (s.max_price - s.min_price) / s.min_price))
    ∧ (∀ (hist : List SpotRecord) (od : ℚ) (d : PriceAnalysisOk),
        od ≤ 0 → analyze_one (.ok hist) od = .ok d → d.max_savings_percent = 0)
    ∧ (∀ p ∈ on_demand_prices, 0 < p.2)
    ∧ (∀ (spot : List (String × ℚ)) (q : String × SavingsEntry),
        q ∈ calculate_potential_savings spot →
          0 < q.2.on_demand_price ∧
          q.2.on_demand_price ∈ on_demand_prices.map Prod.snd ∧
          q.2.savings_percent =
            (q.2.on_demand_price - q.2.spot_price) / q.2.on_demand_price * 100) := by
  refine ⟨?_, ?_, ?_, ?_⟩
  · intro prices s hs
    cases prices with
    | nil => exact absurd hs (by simp [computeAzStats])
    | cons p ps =>
      simp only [computeAzStats, Option.some.injEq] at hs
      subst hs
      constructor
      · intro hle
        dsimp only at hle ⊢
        rw [if_neg (not_lt.mpr hle)]
      · intro hpos
        dsimp only at hpos ⊢
        rw [if_pos hpos]
  · intro hist od d hod hd
    simp only [analyze_one, PriceAnalysisEntry.ok.injEq] at hd
    subst hd
    dsimp only
    rw [if_neg]
    intro hcond
    exact absurd hcond.2 (not_lt.mpr hod)
  · intro p hp
    simp only [on_demand_prices, List.mem_cons, List.not_mem_nil, or_false] at hp
    rcases hp with h | h | h | h <;> subst h <;> norm_num
  · intro spot q hq
    simp only [calculate_potential_savings, List.mem_filterMap] at hq
    obtain ⟨p, -, hp⟩ := hq
    cases hod : on_demand_prices.lookup p.1 with
    | none =>
      rw [hod] at hp
      simp at hp
    | some od =>
      rw [hod] at hp
      simp only [Option.some.injEq] at hp
      subst hp
      obtain ⟨hpos, hmem⟩ := on_demand_lookup_pos p.1 od hod
      exact ⟨hpos, hmem, by dsimp only⟩

end CostOpt

namespace CostOpt

/-- C10, witness: concrete price lists and savings entries exercising
each guarded division. -/
theorem C10_witness :
    (∃ s, computeAzStats [3, 1, 2] = some s ∧
      s.price_volatility = (s.max_price - s.min_price) / s.min_price) ∧
    (∃ d, analyze_one (.ok [{ az := "use1-az1", price := 1/2 }]) 0 = .ok d ∧
      d.max_savings_percent = 0) ∧
    (0 < (("g4dn.xlarge", (119 / 100 : ℚ)) : String × ℚ).2) ∧
    (∃ q, q ∈ calculate_potential_savings [("g4dn.xlarge", 1/2)] ∧
      0 < q.2.on_demand_price ∧
      q.2.savings_percent =
        (q.2.on_demand_price - q.2.spot_price) / q.2.on_demand_price * 100) := by
  refine ⟨⟨_, rfl, ?_⟩, ⟨_, rfl, ?_⟩, ?_, ?_⟩
  · exact (C10_no_division_by_zero.1 [3, 1, 2] _ rfl).2 (by norm_num [listMin, min_def])
  · exact C10_no_division_by_zero.2.1 [{ az := "use1-az1", price := 1/2 }] 0 _ le_rfl rfl
  · exact C10_no_division_by_zero.2.2.1 ("g4dn.xlarge", 119 / 100) (by simp [on_demand_prices])
  · have hq : ("g4dn.xlarge",
        ({ spot_price := 1/2
         , on_demand_price := 119/100
         , hourly_savings := 119/100 - 1/2
         , daily_savings := (119/100 - 1/2) * 24
         , monthly_savings := (119/100 - 1/2) * 24 * 30
         , savings_percent := (119/100 - 1/2) / (119/100) * 100 } : SavingsEntry)) ∈
        calculate_potential_savings [("g4dn.xlarge", 1/2)] := List.mem_singleton.mpr rfl
    obtain ⟨h1, -, h3⟩ :=
      C10_no_division_by_zero.2.2.2 [("g4dn.xlarge", 1/2)] _ hq
    exact ⟨_, hq, h1, h3⟩

end CostOpt
